import Mathlib

/-!
Verification development for the `smart_importer` module of the
physics-exam-generator repository (`src/smart_importer.py`).

The module's pure logic is embedded shallowly:

* PIL images are represented by their pixel dimensions (`Img`); the JPEG
  re-encoding performed by `crop_image` / `img_to_bytes` is represented by a
  symbolic `Bytes` value recording the source image and, for crops, the
  computed pixel rectangle — every claim below concerns the geometry or the
  presence/absence of a result, never the encoded pixel data.
* The Gemini network calls, PDF rasterisation and JSON decoding performed by
  `parse_with_gemini` are external effects; their outcomes enter the embedding
  as explicit inputs (`BatchOutcome`), and the pure per-batch / per-item
  processing of lines 214–351 of `smart_importer.py` is embedded directly.
* Machine floats appear only as exact ratios (`ℚ`): the Python code divides
  normalised 0–1000 coordinates by 1000 and multiplies by pixel dimensions,
  which is exact for the integer inputs involved.
-/

/-- Python's `s.lower()` restricted to the character data the importer handles:
ASCII letters are mapped to lower case, all other characters (including the
CJK keyword characters) are unchanged — exactly what CPython does on them. -/
def pyLower (s : String) : String :=
  String.mk (s.data.map Char.toLower)

/-- Character-list prefix test (auxiliary to the substring test below). -/
def hasPrefixCh : List Char → List Char → Bool
  | [], _ => true
  | _ :: _, [] => false
  | c :: cs, d :: ds => c = d && hasPrefixCh cs ds

/-- Character-list infix test (auxiliary to the substring test below). -/
def hasInfixCh (needle : List Char) : List Char → Bool
  | [] => hasPrefixCh needle []
  | d :: ds => hasPrefixCh needle (d :: ds) || hasInfixCh needle ds

/-- Python's substring test `needle in hay`. -/
def pyIn (needle hay : String) : Bool :=
  hasInfixCh needle.data hay.data

/-- `PHYSICS_CHAPTERS_LIST` from `smart_importer.py` lines 42–50. -/
def PHYSICS_CHAPTERS_LIST : List String :=
  ["未分類",
   "第一章.科學的態度與方法",
   "第二章.物體的運動",
   "第三章. 物質的組成與交互作用",
   "第四章.電與磁的統一",
   "第五章. 能　量",
   "第六章.量子現象"]

/-- `EXCLUDE_KEYWORDS` from `smart_importer.py` lines 52–56. -/
def EXCLUDE_KEYWORDS : List String :=
  ["化學", "反應式", "有機化合物", "酸鹼", "沉澱", "氧化還原", "莫耳", "原子量",
   "生物", "細胞", "遺傳", "DNA", "染色體", "演化", "生態", "光合作用", "酵素",
   "地科", "地質", "板塊", "洋流", "大氣", "氣候", "岩石", "化石", "星系", "地層"]

/-- A PIL page image, represented by its pixel size (`original_img.size`). -/
structure Img where
  width : Nat
  height : Nat
deriving DecidableEq

/-- The pixel rectangle handed to `PIL.Image.crop` (floats in Python, exact
rationals here). -/
structure CropRect where
  left : ℚ
  top : ℚ
  right : ℚ
  bottom : ℚ
deriving DecidableEq

/-- A JPEG blob produced by the importer, kept symbolic: either a re-encoded
full page (`img_to_bytes`) or a crop of a page at a given rectangle
(`crop_image`). -/
inductive Bytes where
  | page (img : Img)
  | crop (img : Img) (rect : CropRect)
deriving DecidableEq

/-- `img_to_bytes` (lines 131–139): re-encodes the full page; the JPEG payload
is kept symbolic. -/
def img_to_bytes (pil_img : Img) : Bytes :=
  Bytes.page pil_img

/-- The padded and clamped vertical bounds computed by `crop_image`
(lines 101–102): `ymin = max(0, ymin - padding_y)`,
`ymax = min(1000, ymax + padding_y)`. -/
def paddedY (ymin ymax padding_y : Int) : Int × Int :=
  (max 0 (ymin - padding_y), min 1000 (ymax + padding_y))

/-- The pixel rectangle computed by `crop_image` (lines 97–116) for a
4-element box `[ymin, xmin, ymax, xmax]` on the 0–1000 scale. -/
def cropRect (img : Img) (ymin xmin ymax xmax : Int)
    (force_full_width : Bool) (padding_y : Int) : CropRect :=
  let p := paddedY ymin ymax padding_y
  let lr : ℚ × ℚ :=
    if force_full_width then
      (0, (img.width : ℚ))
    else
      (((max 0 (xmin - 10) : Int) : ℚ) / 1000 * (img.width : ℚ),
       ((min 1000 (xmax + 10) : Int) : ℚ) / 1000 * (img.width : ℚ))
  { left := lr.1
    top := ((p.1 : ℚ) / 1000) * (img.height : ℚ)
    right := lr.2
    bottom := ((p.2 : ℚ) / 1000) * (img.height : ℚ) }

/-- `crop_image` (lines 94–129). `None`/non-4-element boxes yield `none`
(line 95: `if not box_2d or len(box_2d) != 4`), degenerate rectangles yield
`none` (line 118), otherwise the crop succeeds with the computed rectangle.
The `try` block around the PIL calls only re-encodes the already validated
rectangle, so the geometric embedding returns the symbolic crop there. -/
def crop_image (original_img : Img) (box_2d : Option (List Int))
    (force_full_width : Bool) (padding_y : Int) : Option Bytes :=
  match box_2d with
  | none => none
  | some [ymin, xmin, ymax, xmax] =>
    let r := cropRect original_img ymin xmin ymax xmax force_full_width padding_y
    if r.right ≤ r.left ∨ r.bottom ≤ r.top then none
    else some (Bytes.crop original_img r)
  | some _ => none

/-- Candidate question record: the fields set by
`SmartQuestionCandidate.__init__` (lines 61–77). -/
structure SmartQuestionCandidate where
  raw_text : String
  number : Int
  content : String
  options : List String
  predicted_chapter : String
  is_physics_likely : Bool
  status_reason : String
  image_bytes : Option Bytes
  ref_image_bytes : Option Bytes
  full_page_bytes : Option Bytes
  q_type : String
  subject : String
  sub_questions : List String
deriving DecidableEq

/-- `SmartQuestionCandidate.__init__` (lines 62–77). The Python parameters
`options` and `sub_questions` default to `None` and are normalised with
`x if x else []`, which for a `None`-or-list argument is `Option.getD []`
(an empty list is falsy and also becomes `[]`). Line 69 coerces any chapter
outside `PHYSICS_CHAPTERS_LIST` to `"未分類"`. Sub-question payloads are
passed through unexamined, so they are modelled as raw strings. -/
def SmartQuestionCandidate.init (raw_text : String) (question_number : Int)
    (options : Option (List String)) (chapter : String) (is_likely : Bool)
    (status_reason : String) (image_bytes : Option Bytes) (q_type : String)
    (ref_image_bytes : Option Bytes) (full_page_bytes : Option Bytes)
    (subject : String) (sub_questions : Option (List String)) :
    SmartQuestionCandidate :=
  { raw_text := raw_text
    number := question_number
    content := raw_text
    options := options.getD []
    predicted_chapter := if chapter ∈ PHYSICS_CHAPTERS_LIST then chapter else "未分類"
    is_physics_likely := is_likely
    status_reason := status_reason
    image_bytes := image_bytes
    ref_image_bytes := ref_image_bytes
    full_page_bytes := full_page_bytes
    q_type := q_type
    subject := subject
    sub_questions := sub_questions.getD [] }

/-- The `file_type` argument of `parse_with_gemini` after its configuration
checks: only `'pdf'` and `'docx'` reach the batch loop (line 180 rejects
everything else). -/
inductive FileType where
  | pdf
  | docx
deriving DecidableEq

/-- A JSON value read from the model's `page_index` field: a Python `int`
(JSON booleans also satisfy `isinstance(x, int)` and are included here via
their integer value) or any non-integer value. -/
inductive PyIdx where
  | int (i : Int)
  | notInt
deriving DecidableEq

/-- One item of the model's decoded JSON array, with the fields
`parse_with_gemini` reads (lines 285–337). `none` means the key is absent
(`item.get(...)` falls back to its default, `'key' in item` is false).
For the two box fields the outer `Option` is key presence and the inner
value is the `box_2d` argument passed to `crop_image` (`none` for JSON
null). Sub-question payloads are passed through unexamined and kept as raw
strings. -/
structure Item where
  content : Option String
  type : Option String
  options : Option (List String)
  number : Option Int
  chapter : Option String
  box_2d : Option (Option (List Int))
  full_question_box_2d : Option (Option (List Int))
  page_index : Option PyIdx
  sub_questions : Option (List String)
deriving DecidableEq

/-- Line 286: `(item.get('content', '') + " " + " ".join(item.get('options', []))).lower()`. -/
def combinedText (item : Item) : String :=
  pyLower ((item.content.getD "") ++ " " ++ String.intercalate " " (item.options.getD []))

/-- Line 287: `any(ek in content_text for ek in EXCLUDE_KEYWORDS)`. -/
def excludeHit (item : Item) : Bool :=
  EXCLUDE_KEYWORDS.any (fun ek => pyIn ek (combinedText item))

/-- Lines 290–294: the re-derivation of the question type from the reported
`type`, the multi-select cues and the presence of options. -/
def qTypeOf (item : Item) : String :=
  let content_text := combinedText item
  let q0 := item.type.getD "Single"
  let q1 :=
    if pyIn "應選" content_text &&
        (pyIn "項" content_text || pyIn "二" content_text || pyIn "三" content_text) then
      "Multi"
    else q0
  if q1 != "Group" && (item.options.getD []).isEmpty then "Fill" else q1

/-- Lines 302–305: `local_idx = item.get('page_index', 0)` followed by the
bounds check that resets any non-integer, negative or out-of-range index
to `0`. -/
def localIdx (page_index : Option PyIdx) (n : Nat) : Nat :=
  match page_index.getD (PyIdx.int 0) with
  | PyIdx.notInt => 0
  | PyIdx.int i => if i < 0 ∨ i ≥ (n : Int) then 0 else i.toNat

/-- The body of the `try` block at lines 301–319. The only statement that can
raise after the bounds check is the indexing `batch_imgs[local_idx]`
(line 308), possible only when `batch_imgs` is empty; it is modelled as the
`Except` error. Everything after it is total. -/
def resolveImagesBody (batch_imgs : List Img) (item : Item) :
    Except Unit (Option Bytes × Option Bytes × Option Bytes) :=
  let idx := localIdx item.page_index batch_imgs.length
  match batch_imgs[idx]? with
  | none => Except.error ()
  | some src_img =>
    let full_page_bytes := some (img_to_bytes src_img)
    let diagram_bytes :=
      match item.box_2d with
      | none => none
      | some v => crop_image src_img v false 5
    let ref_bytes :=
      match item.full_question_box_2d with
      | none => full_page_bytes
      | some v => crop_image src_img v true 100
    Except.ok (diagram_bytes, ref_bytes, full_page_bytes)

/-- Lines 296–321: the image-resolution step with its `except` handler.
On an exception the three local variables keep their initial `None`
(lines 296–298); the `print` in the handler is a side effect outside the
embedding. -/
def resolveImages (batch_imgs : List Img) (item : Item) :
    Option Bytes × Option Bytes × Option Bytes :=
  match resolveImagesBody batch_imgs item with
  | Except.ok r => r
  | Except.error _ => (none, none, none)

/-- Lines 285–338: processing of one decoded JSON item. Items hitting the
exclude-keyword filter are skipped (`continue`, line 288); otherwise a
candidate is assembled via `SmartQuestionCandidate.__init__` (lines
323–336). Line 337 re-assigns `cand.content` to the same
`item.get('content', '')` that `__init__` already stored, a no-op. -/
def processItem (file_type : FileType) (batch_imgs : List Img) (item : Item) :
    Option SmartQuestionCandidate :=
  if excludeHit item then none
  else
    let imgsR :=
      if file_type = FileType.pdf then resolveImages batch_imgs item
      else (none, none, none)
    some (SmartQuestionCandidate.init
      (item.content.getD "")
      (item.number.getD 0)
      (some (item.options.getD []))
      (item.chapter.getD "未分類")
      true
      "AI"
      imgsR.1
      (qTypeOf item)
      imgsR.2.1
      imgsR.2.2
      "Physics"
      (some (item.sub_questions.getD [])))

/-- The externally produced outcome of one batch iteration (lines 256–283):
either every model in `candidate_models` raised (`response` stays `None`,
line 272), or the response text was empty (line 277), or cleaning/decoding
the JSON raised (caught at line 340), or a decoded item list was obtained
(`data`, after the dict-to-singleton normalisation of line 283). An
exception raised part-way through the item loop is also a `parseFailure`;
the items already appended before it can be represented as an additional
preceding `parsed` batch, which leaves every property below unchanged. -/
inductive BatchOutcome where
  | modelFailure (last_error : String)
  | emptyText
  | parseFailure (msg : String)
  | parsed (items : List Item)
deriving DecidableEq

/-- One iteration of the batch loop (lines 217–341): the candidates appended
to `all_candidates` and the messages appended to `errors`. -/
def processBatch (file_type : FileType) (batch_imgs : List Img)
    (outcome : BatchOutcome) : List SmartQuestionCandidate × List String :=
  match outcome with
  | BatchOutcome.modelFailure e => ([], ["Batch failed: " ++ e])
  | BatchOutcome.emptyText => ([], ["Batch: Empty response"])
  | BatchOutcome.parseFailure m => ([], ["解析錯誤: " ++ m])
  | BatchOutcome.parsed items => (items.filterMap (processItem file_type batch_imgs), [])

/-- Stable insertion of a candidate into a list already sorted by `number`:
the new candidate goes after every earlier candidate with a key not greater
than its own. -/
def insertByNumber (c : SmartQuestionCandidate) :
    List SmartQuestionCandidate → List SmartQuestionCandidate
  | [] => [c]
  | d :: ds =>
    if d.number < c.number then d :: insertByNumber c ds else c :: d :: ds

/-- Lines 347–349: `all_candidates.sort(key=lambda x: int(x.number))`.
CPython's sort is a stable sort on the integer key; `number` is an integer
in this embedding, so `int()` never raises and the `except: pass` is dead.
Stable insertion sort yields the same list as any stable sort by key. -/
def sortCandidates (l : List SmartQuestionCandidate) : List SmartQuestionCandidate :=
  l.foldr insertByNumber []

/-- The candidates produced by all batches, in batch order (the successive
`all_candidates.append` calls of line 338). -/
def candidatesProduced (file_type : FileType)
    (batches : List (List Img × BatchOutcome)) : List SmartQuestionCandidate :=
  batches.flatMap (fun b => (processBatch file_type b.1 b.2).1)

/-- The batch-level error messages recorded by all batches, in order (the
successive `errors.append` calls of lines 273, 278 and 341). -/
def recordedErrors (file_type : FileType)
    (batches : List (List Img × BatchOutcome)) : List String :=
  batches.flatMap (fun b => (processBatch file_type b.1 b.2).2)

/-- Lines 214–351 of `parse_with_gemini`: the batch loop and the final
aggregation. The configuration checks of lines 149–198 return an error
dict before this point; a call that passes them reaches this loop with its
page images and per-batch model outcomes, which enter here as the
`batches` input (this snapshot builds a single batch at line 201; the loop
itself ranges over a list, kept general here). `{"error": ...}` is the
`Except.error` result, the returned candidate list is `Except.ok`. -/
def parse_with_gemini_core (file_type : FileType)
    (batches : List (List Img × BatchOutcome)) :
    Except String (List SmartQuestionCandidate) :=
  let acc := batches.foldl
    (fun (acc : List SmartQuestionCandidate × List String) b =>
      let r := processBatch file_type b.1 b.2
      (acc.1 ++ r.1, acc.2 ++ r.2))
    ([], [])
  if acc.1.isEmpty && !acc.2.isEmpty then
    Except.error (String.intercalate "; " acc.2)
  else
    Except.ok (sortCandidates acc.1)

/-- Characters stripped by the segmenter's trimming (Python `str.strip()` on
the character repertoire involved). -/
def isTrimCh (c : Char) : Bool :=
  c == ' ' || c == '\t' || c == '\n' || c == '\r' || c == '　'

/-- Leading characters the anchor pattern skips: whitespace and brackets. -/
def isLeadJunkCh (c : Char) : Bool :=
  isTrimCh c || c == '(' || c == ')' || c == '（' || c == '）' ||
    c == '[' || c == ']' || c == '【' || c == '】'

/-- Separators accepted after the anchor number: `.`、full-width variants, or
whitespace. -/
def isSepCh (c : Char) : Bool :=
  c == '.' || c == '、' || c == '．' || isTrimCh c

/-- Split a character list at every newline (Python `text.split('\n')`). -/
def splitLinesCh : List Char → List (List Char)
  | [] => [[]]
  | c :: cs =>
    if c = '\n' then [] :: splitLinesCh cs
    else
      match splitLinesCh cs with
      | [] => [[c]]
      | l :: ls => (c :: l) :: ls

/-- An anchor of the fallback segmenter (spec §3): a line that looks like a
numbered question start, with the text remaining after the number and its
separator. -/
structure Anchor where
  lineIndex : Nat
  number : Nat
  rest : List Char
deriving DecidableEq

/-- Modelled from the spec (§4.2 step 1, missing from `src/`): a line matches
if it begins, after optional leading whitespace/brackets, with a decimal
integer `0 < n < 200` followed by a recognised separator; the returned rest
is the line with the number and separator stripped (§4.2 step 3). -/
def anchorOfLine (line : List Char) : Option (Nat × List Char) :=
  let afterJunk := line.dropWhile isLeadJunkCh
  let ds := afterJunk.takeWhile Char.isDigit
  if ds.isEmpty then none
  else
    let n := ds.foldl (fun acc c => acc * 10 + (c.toNat - 48)) 0
    if 0 < n ∧ n < 200 then
      match afterJunk.dropWhile Char.isDigit with
      | [] => none
      | c :: rest => if isSepCh c then some (n, rest) else none
    else none

/-- All candidate anchors of a line list, in position order. -/
def anchorsOf (lines : List (List Char)) : List Anchor :=
  lines.enum.filterMap fun p =>
    (anchorOfLine p.2).map fun a => ⟨p.1, a.1, a.2⟩

/-- Modelled from the spec (§4.2 step 2): the best valid chain ending just
before the new anchor `a`. Chains are stored most-recent-first; a chain may
precede `a` when its head satisfies `1 <= a.number - head.number <= 5`, and
the longest such chain wins (first one on ties, the usual argmax). -/
def bestPrevChain (chains : List (List Anchor)) (a : Anchor) : List Anchor :=
  chains.foldl
    (fun best ch =>
      match ch with
      | [] => best
      | b :: _ =>
        if b.number < a.number && a.number - b.number ≤ 5 &&
            best.length < ch.length then ch else best)
    []

/-- Modelled from the spec (§4.2 step 2): the DP table — for each anchor, in
order, the longest valid chain ending at it (stored most-recent-first). -/
def buildChains (anchors : List Anchor) : List (List Anchor) :=
  anchors.foldl (fun chains a => chains ++ [a :: bestPrevChain chains a]) []

/-- Modelled from the spec (§4.2 step 2): select the global maximum of the DP
table (first one on ties). -/
def bestChain (chains : List (List Anchor)) : List Anchor :=
  chains.foldl (fun best ch => if best.length < ch.length then ch else best) []

/-- Modelled from the spec (§4.2 step 3): between consecutive selected
anchors (and from the last anchor to end of text) the lines form one raw
chunk, the leading number and separator stripped from the first line. -/
def chunksFrom (lines : List (List Char)) : List Anchor → List (Nat × List (List Char))
  | [] => []
  | a :: rest =>
    let stop := match rest with
      | [] => lines.length
      | b :: _ => b.lineIndex
    (a.number, a.rest :: ((lines.drop (a.lineIndex + 1)).take (stop - (a.lineIndex + 1))))
      :: chunksFrom lines rest

/-- Rejoin a chunk's lines with newlines. -/
def joinLinesCh : List (List Char) → List Char
  | [] => []
  | [l] => l
  | l :: ls => l ++ '\n' :: joinLinesCh ls

/-- Modelled from the spec (§4.2 step 5): split a chunk at `(A) ... (B) ...`
style markers. The head segment is the text before the first marker (the
stem), each later segment is the text following one marker (an option). -/
def optionSegs : List Char → List (List Char)
  | [] => [[]]
  | '(' :: c :: ')' :: rest =>
    if Nat.ble 65 c.toNat && Nat.ble c.toNat 90 then
      [] :: optionSegs rest
    else
      match optionSegs (c :: ')' :: rest) with
      | [] => [['(']]
      | s :: ss => ('(' :: s) :: ss
  | c :: rest =>
    match optionSegs rest with
    | [] => [[c]]
    | s :: ss => (c :: s) :: ss

/-- Strip leading and trailing whitespace from a character list. -/
def trimCh (l : List Char) : List Char :=
  ((l.dropWhile isTrimCh).reverse.dropWhile isTrimCh).reverse

/-- A candidate produced by the fallback segmenter: number, stem text, and
option texts. -/
structure RawCandidate where
  number : Nat
  content : String
  options : List String
deriving DecidableEq

/-- Build one candidate from a chunk: rejoin its lines, split off the
options, and trim. -/
def candidateOfChunk (chunk : Nat × List (List Char)) : RawCandidate :=
  match optionSegs (joinLinesCh chunk.2) with
  | [] => ⟨chunk.1, "", []⟩
  | stem :: opts =>
    ⟨chunk.1, String.mk (trimCh stem), opts.map fun o => String.mk (trimCh o)⟩

/-- Modelled from the spec: `parse_raw_file` in `src/smart_importer.py`
(lines 353–354) is a stub that returns `[]`; the no-LLM fallback segmenter
it names is described in spec §4.2 and modelled here — anchor generation,
longest-valid-chain selection with gap tolerance `1..5`, chunking between
selected anchors, and option splitting. The model is a total function, so
it returns a (possibly empty) candidate list for every input text. -/
def parse_raw_file (text : String) : List RawCandidate :=
  let lines := splitLinesCh text.data
  let selected := (bestChain (buildChains (anchorsOf lines))).reverse
  (chunksFrom lines selected).map candidateOfChunk



/-- The claim-side description of a bad `page_index` (C9): missing, not an
integer, negative, or at least the number of images in the batch. -/
def isBadPageIdx (page_index : Option PyIdx) (n : Nat) : Bool :=
  match page_index with
  | none => true
  | some PyIdx.notInt => true
  | some (PyIdx.int i) => decide (i < 0) || decide ((n : Int) ≤ i)

/-- Membership in a stable insertion is membership in the inserted element or
the original list. -/
theorem mem_insertByNumber (a c : SmartQuestionCandidate)
    (l : List SmartQuestionCandidate) :
    a ∈ insertByNumber c l ↔ a = c ∨ a ∈ l := by
  induction l with
  | nil => simp [insertByNumber]
  | cons d ds ih =>
    simp only [insertByNumber]
    split
    · simp [List.mem_cons, ih]
      tauto
    · simp [List.mem_cons]

/-- Sorting does not change membership. -/
theorem mem_sortCandidates (a : SmartQuestionCandidate)
    (l : List SmartQuestionCandidate) :
    a ∈ sortCandidates l ↔ a ∈ l := by
  induction l with
  | nil => simp [sortCandidates]
  | cons c cs ih =>
    simp only [sortCandidates, List.foldr_cons] at *
    rw [mem_insertByNumber, ih, List.mem_cons]

/-- Every constructed candidate's chapter is in the fixed vocabulary. -/
theorem init_chapter_mem (raw : String) (n : Int) (opts : Option (List String))
    (ch : String) (lk : Bool) (sr : String) (ib : Option Bytes) (qt : String)
    (rb fb : Option Bytes) (sj : String) (sq : Option (List String)) :
    (SmartQuestionCandidate.init raw n opts ch lk sr ib qt rb fb sj sq).predicted_chapter ∈
      PHYSICS_CHAPTERS_LIST := by
  simp only [SmartQuestionCandidate.init]
  split
  · assumption
  · decide

/-- A candidate emitted by `processItem` has its chapter in the fixed
vocabulary. -/
theorem processItem_chapter_mem (ft : FileType) (imgs : List Img) (item : Item)
    (c : SmartQuestionCandidate) (h : processItem ft imgs item = some c) :
    c.predicted_chapter ∈ PHYSICS_CHAPTERS_LIST := by
  simp only [processItem] at h
  split at h
  · exact absurd h (by simp)
  · rw [Option.some.injEq] at h
    subst h
    apply init_chapter_mem

/-- A candidate emitted by one batch has its chapter in the fixed
vocabulary. -/
theorem processBatch_chapter_mem (ft : FileType) (imgs : List Img)
    (o : BatchOutcome) (c : SmartQuestionCandidate)
    (h : c ∈ (processBatch ft imgs o).1) :
    c.predicted_chapter ∈ PHYSICS_CHAPTERS_LIST := by
  cases o with
  | modelFailure e => simp [processBatch] at h
  | emptyText => simp [processBatch] at h
  | parseFailure m => simp [processBatch] at h
  | parsed items =>
    simp only [processBatch, List.mem_filterMap] at h
    obtain ⟨item, _, hi⟩ := h
    exact processItem_chapter_mem ft imgs item c hi

/-- The batch-loop fold accumulates exactly the flattened per-batch
candidates and errors. -/
theorem core_foldl_eq (ft : FileType) (batches : List (List Img × BatchOutcome))
    (c0 : List SmartQuestionCandidate) (e0 : List String) :
    batches.foldl
      (fun (acc : List SmartQuestionCandidate × List String) b =>
        let r := processBatch ft b.1 b.2
        (acc.1 ++ r.1, acc.2 ++ r.2))
      (c0, e0) =
    (c0 ++ candidatesProduced ft batches, e0 ++ recordedErrors ft batches) := by
  induction batches generalizing c0 e0 with
  | nil => simp [candidatesProduced, recordedErrors]
  | cons b bs ih =>
    simp only [List.foldl_cons, candidatesProduced, recordedErrors,
      List.flatMap_cons] at *
    rw [ih]
    simp [List.append_assoc]

/-- `parse_with_gemini_core` in terms of the flattened candidate and error
lists. -/
theorem core_eq (ft : FileType) (batches : List (List Img × BatchOutcome)) :
    parse_with_gemini_core ft batches =
      if (candidatesProduced ft batches).isEmpty &&
          !(recordedErrors ft batches).isEmpty then
        Except.error (String.intercalate "; " (recordedErrors ft batches))
      else
        Except.ok (sortCandidates (candidatesProduced ft batches)) := by
  unfold parse_with_gemini_core
  rw [core_foldl_eq]
  simp

/-- Claim C1: the no-LLM fallback segmenter, applied to the input text
`"1. What is velocity?\n(A) m/s\n(B) m\n21. Unrelated noise line\n2. Newton's
second law states...\n(A) F=ma\n(B) F=m/a"`, returns exactly two ordered
candidates numbered 1 and 2 — the stray anchor 21 is excluded by the `<= 5`
gap rule — each with its two options split from its stem. (`parse_raw_file`
is a total function of the input text, so every input yields a — possibly
empty — candidate list without raising.) -/
theorem c1_segmenter_scenario :
    parse_raw_file
      "1. What is velocity?\n(A) m/s\n(B) m\n21. Unrelated noise line\n2. Newton's second law states...\n(A) F=ma\n(B) F=m/a" =
    [⟨1, "What is velocity?", ["m/s", "m\n21. Unrelated noise line"]⟩,
     ⟨2, "Newton's second law states...", ["F=ma", "F=m/a"]⟩] := by decide

/-- Claim C2: for every call reaching the batch loop, if zero candidates were
produced then: with at least one recorded batch error the call returns the
single aggregated error joining all recorded batch error messages with
`"; "`; with zero recorded errors it returns the empty candidate list, not
an error. -/
theorem c2_zero_candidate_aggregation (ft : FileType)
    (batches : List (List Img × BatchOutcome))
    (h : candidatesProduced ft batches = []) :
    (recordedErrors ft batches ≠ [] →
      parse_with_gemini_core ft batches =
        Except.error (String.intercalate "; " (recordedErrors ft batches))) ∧
    (recordedErrors ft batches = [] →
      parse_with_gemini_core ft batches = Except.ok []) := by
  constructor
  · intro he
    rw [core_eq, h]
    simp [he]
  · intro he
    rw [core_eq, h, he]
    simp [sortCandidates]

/-- Witness for C2: a single failing batch aggregates into one error; no
batches at all yield the empty list. -/
theorem c2_zero_candidate_aggregation_witness :
    parse_with_gemini_core FileType.pdf [([], BatchOutcome.modelFailure "boom")] =
      Except.error "Batch failed: boom" ∧
    parse_with_gemini_core FileType.pdf [] = Except.ok [] := by
  have h1 := c2_zero_candidate_aggregation FileType.pdf
    [([], BatchOutcome.modelFailure "boom")] rfl
  have h2 := c2_zero_candidate_aggregation FileType.pdf [] rfl
  exact ⟨(h1.1 (by decide)).trans (by rfl), h2.2 rfl⟩

/-- A decoded item whose text contains the exclude keyword `"DNA"`. -/
def dnaItem : Item :=
  ⟨some "DNA", none, some [], some 7, none, none, none, none, none⟩

/-- Claim C3 (code bug): `"DNA"` is in `EXCLUDE_KEYWORDS` and the item's
content contains it, yet the item is NOT dropped — line 286 lowercases the
combined text before the substring test of line 287, so the uppercase
keyword `"DNA"` can never match and the item survives into the candidate
list. -/
theorem c3_dna_item_kept :
    "DNA" ∈ EXCLUDE_KEYWORDS ∧
    pyIn "DNA" (dnaItem.content.getD "") = true ∧
    excludeHit dnaItem = false ∧
    (processItem FileType.pdf [] dnaItem).isSome = true ∧
    (candidatesProduced FileType.pdf [([], BatchOutcome.parsed [dnaItem])]).length = 1 := by
  decide

/-- A decoded item whose text contains the multi-select cue (`應選` and `項`)
but which has no options. -/
def c4CueNoOptionsItem : Item :=
  ⟨some "下列敘述何者正確，應選出正確項目", some "Single", some [], some 3, none,
    none, none, none, none⟩

/-- Counterexample to C4 as stated: this item's combined text contains the
multi-select cue (`應選` together with `項`), yet the derived answer type is
`"Fill"`, not `"Multi"` — lines 293–294 run after the multi-select override
and rewrite the type of any option-less non-group item. -/
theorem c4_counterexample :
    pyIn "應選" (combinedText c4CueNoOptionsItem) = true ∧
    pyIn "項" (combinedText c4CueNoOptionsItem) = true ∧
    qTypeOf c4CueNoOptionsItem ≠ "Multi" ∧
    qTypeOf c4CueNoOptionsItem = "Fill" := by decide

/-- Claim C4 as amended: the derived answer type is `"Multi"` whenever the
combined text contains the multi-select cue (`應選` together with `項`) AND
the item has at least one option — even if the model reported `"Single"` —
and the answer type is `"Fill"` whenever the item has no options and its
reported type is not `"Group"` (when both situations apply, `"Fill"`
wins, as the counterexample shows). -/
theorem c4_qtype_amended (item : Item) :
    (pyIn "應選" (combinedText item) = true →
      pyIn "項" (combinedText item) = true →
      (item.options.getD []).isEmpty = false →
      qTypeOf item = "Multi") ∧
    ((item.options.getD []).isEmpty = true →
      item.type.getD "Single" ≠ "Group" →
      qTypeOf item = "Fill") := by
  constructor
  · intro h1 h2 h3
    simp only [qTypeOf, h1, h2, h3]
    simp
  · intro h1 h2
    simp only [qTypeOf, h1]
    split
    · simp
    · simp [h2, bne_iff_ne]

/-- Witness for C4 (amended): an item with the cue and one option derives
`"Multi"`; an option-less `"Single"` item derives `"Fill"`. -/
theorem c4_qtype_amended_witness :
    qTypeOf ⟨some "本題應選二項", some "Single", some ["(A) 甲"], some 1, none,
      none, none, none, none⟩ = "Multi" ∧
    qTypeOf ⟨some "填充題", some "Single", none, some 2, none,
      none, none, none, none⟩ = "Fill" :=
  ⟨(c4_qtype_amended _).1 (by decide) (by decide) (by decide),
   (c4_qtype_amended _).2 (by decide) (by decide)⟩

/-- Claim C5: with `force_full_width` true, every successful crop spans the
whole image width — `left = 0`, `right = width`, independent of the box's
`xmin`/`xmax` — and its vertical pixel bounds are the padded, clamped
`ymin`/`ymax` mapped from the 0–1000 scale onto pixel rows. -/
theorem c5_full_width (img : Img) (y1 x1 y2 x2 p : Int) (rect : CropRect)
    (h : crop_image img (some [y1, x1, y2, x2]) true p =
      some (Bytes.crop img rect)) :
    rect.left = 0 ∧
    rect.right = (img.width : ℚ) ∧
    rect.top = ((paddedY y1 y2 p).1 : ℚ) / 1000 * (img.height : ℚ) ∧
    rect.bottom = ((paddedY y1 y2 p).2 : ℚ) / 1000 * (img.height : ℚ) ∧
    (∀ x1a x2a : Int,
      crop_image img (some [y1, x1a, y2, x2a]) true p =
        crop_image img (some [y1, x1, y2, x2]) true p) := by
  simp only [crop_image] at h
  split at h
  · exact absurd h (by simp)
  · rw [Option.some.injEq, Bytes.crop.injEq] at h
    obtain ⟨-, hr⟩ := h
    subst hr
    refine ⟨?_, ?_, ?_, ?_, ?_⟩
    · simp [cropRect]
    · simp [cropRect]
    · simp [cropRect]
    · simp [cropRect]
    · intro x1a x2a
      simp [crop_image, cropRect]

/-- Witness for C5: the spec's concrete scenario — a 1000×2000 image, box
`[100, 300, 200, 700]`, `force_full_width` with `padding_y = 50` — crops the
full width and the rows for `y ∈ [50, 250]` (pixel rows 100 to 500). -/
theorem c5_full_width_witness :
    crop_image ⟨1000, 2000⟩ (some [100, 300, 200, 700]) true 50 =
      some (Bytes.crop ⟨1000, 2000⟩ ⟨0, 100, 1000, 500⟩) ∧
    (⟨0, 100, 1000, 500⟩ : CropRect).left = 0 ∧
    (⟨0, 100, 1000, 500⟩ : CropRect).right = ((1000 : Nat) : ℚ) := by
  have hc : crop_image ⟨1000, 2000⟩ (some [100, 300, 200, 700]) true 50 =
      some (Bytes.crop ⟨1000, 2000⟩ ⟨0, 100, 1000, 500⟩) := by
    norm_num [crop_image, cropRect, paddedY]
  have h := c5_full_width ⟨1000, 2000⟩ 100 300 200 700 50 ⟨0, 100, 1000, 500⟩ hc
  exact ⟨hc, h.1, h.2.1⟩

/-- Counterexample to C6 as stated: the code clamps `ymin` only from below
and `ymax` only from above, so a box already outside the 0–1000 scale (or a
negative padding) leaves a padded bound above 1000. -/
theorem c6_counterexample :
    (paddedY 2000 3000 10).1 = 1990 ∧ ¬((paddedY 2000 3000 10).1 ≤ 1000) ∧
    (paddedY 900 1000 (-200)).1 = 1100 ∧
    ¬((paddedY 900 1000 (-200)).1 ≤ 1000) := by decide

/-- Claim C6 as amended: for every box whose vertical coordinates lie on the
0–1000 scale and every nonnegative padding (all call sites pass 5, 10, 50 or
100), the padded `ymin`/`ymax` computed by `crop_image` remain within
`[0, 1000]`, even when the padding would otherwise push them out of range. -/
theorem c6_padding_clamped (y1 y2 p : Int) (hy1l : 0 ≤ y1) (hy1r : y1 ≤ 1000)
    (hy2l : 0 ≤ y2) (hy2r : y2 ≤ 1000) (hp : 0 ≤ p) :
    0 ≤ (paddedY y1 y2 p).1 ∧ (paddedY y1 y2 p).1 ≤ 1000 ∧
    0 ≤ (paddedY y1 y2 p).2 ∧ (paddedY y1 y2 p).2 ≤ 1000 := by
  simp only [paddedY]
  omega

/-- Witness for C6 (amended): padding 100 on the in-range box `[5, 990]`
would reach `[-95, 1090]` but is clamped to `[0, 1000]`. -/
theorem c6_padding_clamped_witness :
    0 ≤ (paddedY 5 990 100).1 ∧ (paddedY 5 990 100).1 ≤ 1000 ∧
    0 ≤ (paddedY 5 990 100).2 ∧ (paddedY 5 990 100).2 ≤ 1000 :=
  c6_padding_clamped 5 990 100 (by decide) (by decide) (by decide) (by decide)
    (by decide)

/-- Claim C7: whenever the rectangle computed from a 4-element box after
padding and clamping is degenerate (`right <= left` or `bottom <= top`),
`crop_image` returns `none`; no other outcome (in particular no exception)
is possible there. -/
theorem c7_degenerate_box_none (img : Img) (y1 x1 y2 x2 : Int)
    (force_full_width : Bool) (p : Int)
    (h : (cropRect img y1 x1 y2 x2 force_full_width p).right ≤
          (cropRect img y1 x1 y2 x2 force_full_width p).left ∨
        (cropRect img y1 x1 y2 x2 force_full_width p).bottom ≤
          (cropRect img y1 x1 y2 x2 force_full_width p).top) :
    crop_image img (some [y1, x1, y2, x2]) force_full_width p = none := by
  simp only [crop_image]
  exact if_pos h

/-- Witness for C7: a box whose `ymax` lies above its `ymin` after padding
(pixel bottom 41 ≤ top 49) yields `none`. -/
theorem c7_degenerate_box_none_witness :
    crop_image ⟨100, 100⟩ (some [500, 0, 400, 1000]) false 10 = none :=
  c7_degenerate_box_none ⟨100, 100⟩ 500 0 400 1000 false 10
    (Or.inr (by norm_num [cropRect, paddedY]))

/-- Claim C8: every constructed `SmartQuestionCandidate` has its
`predicted_chapter` in the fixed 7-entry chapter list; any out-of-vocabulary
chapter is coerced to `"未分類"` at construction; and every candidate list
returned by the batch loop satisfies the invariant. -/
theorem c8_chapter_vocabulary :
    (∀ (raw : String) (n : Int) (opts : Option (List String)) (ch : String)
        (lk : Bool) (sr : String) (ib : Option Bytes) (qt : String)
        (rb fb : Option Bytes) (sj : String) (sq : Option (List String)),
      (SmartQuestionCandidate.init raw n opts ch lk sr ib qt rb fb sj
          sq).predicted_chapter ∈ PHYSICS_CHAPTERS_LIST) ∧
    (∀ (raw : String) (n : Int) (opts : Option (List String)) (ch : String)
        (lk : Bool) (sr : String) (ib : Option Bytes) (qt : String)
        (rb fb : Option Bytes) (sj : String) (sq : Option (List String)),
      ch ∉ PHYSICS_CHAPTERS_LIST →
      (SmartQuestionCandidate.init raw n opts ch lk sr ib qt rb fb sj
          sq).predicted_chapter = "未分類") ∧
    (∀ (ft : FileType) (batches : List (List Img × BatchOutcome))
        (cands : List SmartQuestionCandidate),
      parse_with_gemini_core ft batches = Except.ok cands →
      ∀ c ∈ cands, c.predicted_chapter ∈ PHYSICS_CHAPTERS_LIST) := by
  refine ⟨fun raw n opts ch lk sr ib qt rb fb sj sq => init_chapter_mem _ _ _ _ _ _ _ _ _ _ _ _,
    ?_, ?_⟩
  · intro raw n opts ch lk sr ib qt rb fb sj sq hch
    simp only [SmartQuestionCandidate.init]
    rw [if_neg hch]
  · intro ft batches cands h c hc
    rw [core_eq] at h
    split at h
    · exact absurd h (by simp)
    · rw [Except.ok.injEq] at h
      subst h
      rw [mem_sortCandidates] at hc
      simp only [candidatesProduced, List.mem_flatMap] at hc
      obtain ⟨b, -, hb⟩ := hc
      exact processBatch_chapter_mem ft b.1 b.2 c hb

/-- Witness for C8: an out-of-vocabulary chapter string from the model is
coerced to `"未分類"`, and a one-batch run returns only in-vocabulary
chapters. -/
theorem c8_chapter_vocabulary_witness :
    (SmartQuestionCandidate.init "q" 1 none "Biology chapter 9" true "AI" none
      "Single" none none "Physics" none).predicted_chapter = "未分類" ∧
    (∀ c ∈ [SmartQuestionCandidate.init "q" 1 (some []) "未分類" true "AI" none
        "Fill" none none "Physics" (some [])],
      c.predicted_chapter ∈ PHYSICS_CHAPTERS_LIST) := by
  constructor
  · exact c8_chapter_vocabulary.2.1 "q" 1 none "Biology chapter 9" true "AI"
      none "Single" none none "Physics" none (by decide)
  · exact c8_chapter_vocabulary.2.2 FileType.docx
      [([], BatchOutcome.parsed
        [⟨some "q", some "Fill", some [], some 1, some "未分類", none, none, none, none⟩])]
      _ (by rfl)

/-- Claim C9: the image-resolution step of the item loop never lets an
exception escape — the `try` body either succeeds with the computed triple or
its only fallible statement (the page indexing) fails and the handler leaves
all three image slots `None` — and for a nonempty batch every bad
`page_index` (missing, non-integer, negative, or at least the batch size) is
defaulted to page 0, whose image becomes the item's full-page bytes. -/
theorem c9_page_index_default (batch_imgs : List Img) (item : Item) :
    (resolveImagesBody batch_imgs item =
        Except.ok (resolveImages batch_imgs item) ∨
      (resolveImagesBody batch_imgs item = Except.error () ∧
        resolveImages batch_imgs item = (none, none, none))) ∧
    (batch_imgs ≠ [] → isBadPageIdx item.page_index batch_imgs.length = true →
      localIdx item.page_index batch_imgs.length = 0 ∧
      (resolveImages batch_imgs item).2.2 = batch_imgs[0]?.map img_to_bytes) := by
  constructor
  · cases hb : resolveImagesBody batch_imgs item with
    | ok r => left; simp [resolveImages, hb]
    | error e =>
      right
      cases e
      exact ⟨rfl, by simp [resolveImages, hb]⟩
  · intro hne hbad
    obtain ⟨a, t, rfl⟩ : ∃ a t, batch_imgs = a :: t := by
      cases batch_imgs with
      | nil => exact absurd rfl hne
      | cons a t => exact ⟨a, t, rfl⟩
    have hidx : localIdx item.page_index (a :: t).length = 0 := by
      cases hpi : item.page_index with
      | none =>
        simp only [localIdx, hpi, Option.getD]
        rw [if_neg]
        · rfl
        · simp only [List.length_cons]
          push_cast
          simp only [false_or]
          omega
      | some pi =>
        cases pi with
        | notInt => simp [localIdx, hpi]
        | int i =>
          simp only [isBadPageIdx, hpi] at hbad
          rw [Bool.or_eq_true, decide_eq_true_eq, decide_eq_true_eq] at hbad
          simp only [localIdx, hpi, Option.getD]
          rw [if_pos]
          rcases hbad with h | h
          · exact Or.inl h
          · exact Or.inr (by omega)
    refine ⟨hidx, ?_⟩
    have hidx2 := hidx
    simp only [List.length_cons] at hidx2
    simp [resolveImages, resolveImagesBody, hidx2]

/-- Witness for C9: a one-page batch with reported `page_index` 5 uses
page 0, and its image becomes the full-page bytes. -/
theorem c9_page_index_default_witness :
    localIdx (some (PyIdx.int 5)) 1 = 0 ∧
    (resolveImages [⟨100, 100⟩]
        ⟨none, none, none, none, none, none, none, some (PyIdx.int 5), none⟩).2.2 =
      some (Bytes.page ⟨100, 100⟩) := by
  have h := (c9_page_index_default [⟨100, 100⟩]
    ⟨none, none, none, none, none, none, none, some (PyIdx.int 5), none⟩).2
    (by decide) (by decide)
  exact ⟨h.1, h.2.trans rfl⟩

/-- Claim C10: a missing box or one that does not have exactly 4 elements
makes `crop_image` return `none` without raising — line 95 covers malformed
box shapes, not only degenerate coordinates. -/
theorem c10_malformed_box_none (img : Img) (force_full_width : Bool) (p : Int)
    (box : Option (List Int))
    (h : box = none ∨ ∃ l, box = some l ∧ l.length ≠ 4) :
    crop_image img box force_full_width p = none := by
  rcases h with rfl | ⟨l, rfl, hl⟩
  · rfl
  · rcases l with _ | ⟨a, _ | ⟨b, _ | ⟨c, _ | ⟨d, _ | ⟨e, t⟩⟩⟩⟩⟩
    · rfl
    · rfl
    · rfl
    · rfl
    · simp at hl
    · rfl

/-- Witness for C10: a `None` box and a 3-element box both yield `none`. -/
theorem c10_malformed_box_none_witness :
    crop_image ⟨10, 10⟩ none true 5 = none ∧
    crop_image ⟨10, 10⟩ (some [1, 2, 3]) true 5 = none :=
  ⟨c10_malformed_box_none ⟨10, 10⟩ true 5 none (Or.inl rfl),
   c10_malformed_box_none ⟨10, 10⟩ true 5 (some [1, 2, 3])
     (Or.inr ⟨[1, 2, 3], rfl, by decide⟩)⟩
